import Mathlib

set_option autoImplicit false

/-!
Verification development for the DigiByte Adamantine Wallet OS authorization
core: the EQC policy decision engine (`src/core/eqc`), the Guardian approval
workflow (`src/core/guardian-wallet`), and the WSQK scoped execution gate
(`src/core/wsqk`).

The Python sources are shallowly embedded: frozen dataclasses become Lean
structures, mutation of session / request state becomes explicit state
passing, raised exceptions become `Except String`, and the ambient wall
clock (`time.time()`) becomes an explicit `now : Int` argument.
-/

/-! ## Canonical JSON serialization (models `json.dumps(..., sort_keys=True)`)

`EQCContext.context_hash` in `src/core/eqc/context.py` serializes the
context with `json.dumps(self.to_dict(), sort_keys=True)` and hashes the
result with SHA-256.  The serializer below reproduces that canonical,
key-ordered rendering (default separators `", "` and `": "`, `ensure_ascii`
escaping); values stored in the open-ended `extra` map are modelled by the
flat JSON value type `JVal`.
-/

/-- JSON values storable in the open-ended `extra` map of a context. -/
inductive JVal where
  | jnull : JVal
  | jbool : Bool → JVal
  | jint : Int → JVal
  | jstr : String → JVal
deriving DecidableEq

/-- Lower-case hexadecimal digit. -/
def hexDigit (n : Nat) : Char :=
  if n < 10 then Char.ofNat (48 + n) else Char.ofNat (87 + n)

/-- Four hex digits (for a JSON `\u` escape). -/
def hexDigit4 (n : Nat) : String :=
  String.mk [hexDigit ((n >>> 12) % 16), hexDigit ((n >>> 8) % 16),
             hexDigit ((n >>> 4) % 16), hexDigit (n % 16)]

/-- Escape one character the way `json.dumps` (with its default
`ensure_ascii=True`) renders it inside a string literal. -/
def jsonEscapeChar (c : Char) : String :=
  if c = '"' then "\\\""
  else if c = '\\' then "\\\\"
  else if c = '\n' then "\\n"
  else if c = '\t' then "\\t"
  else if c = '\r' then "\\r"
  else if c = Char.ofNat 8 then "\\b"
  else if c = Char.ofNat 12 then "\\f"
  else if c.toNat < 32 then "\\u" ++ hexDigit4 c.toNat
  else if c.toNat < 127 then String.mk [c]
  else if c.toNat < 65536 then "\\u" ++ hexDigit4 c.toNat
  else
    "\\u" ++ hexDigit4 (55296 + (c.toNat - 65536) / 1024) ++
    "\\u" ++ hexDigit4 (56320 + (c.toNat - 65536) % 1024)

/-- A JSON string literal. -/
def jsonStr (s : String) : String :=
  "\"" ++ String.join (s.toList.map jsonEscapeChar) ++ "\""

/-- Render a JSON object from already-rendered field values (callers pass
the fields in the key order produced by `sort_keys=True`). -/
def jsonObj (fields : List (String × String)) : String :=
  "\x7b" ++ String.intercalate ", " (fields.map (fun kv => jsonStr kv.1 ++ ": " ++ kv.2)) ++ "\x7d"

/-- Render an optional integer (`None` prints as `null`). -/
def jsonOptInt : Option Int → String
  | none => "null"
  | some n => toString n

/-- Render an optional string (`None` prints as `null`). -/
def jsonOptStr : Option String → String
  | none => "null"
  | some s => jsonStr s

/-- Render a boolean (Python `True` / `False` print as `true` / `false`). -/
def jsonBool : Bool → String
  | true => "true"
  | false => "false"

/-- Render a flat JSON value. -/
def JVal.dump : JVal → String
  | .jnull => "null"
  | .jbool b => jsonBool b
  | .jint n => toString n
  | .jstr s => jsonStr s

/-- Key order used by `sort_keys=True` on the `extra` map. -/
def extraKeyLe (p q : String × JVal) : Prop := p.1 ≤ q.1

instance : DecidableRel extraKeyLe := fun p q =>
  inferInstanceAs (Decidable (p.1 ≤ q.1))

instance : IsTotal (String × JVal) extraKeyLe :=
  ⟨fun p q => le_total p.1 q.1⟩

instance : IsTrans (String × JVal) extraKeyLe :=
  ⟨fun _ _ _ hpq hqr => le_trans hpq hqr⟩

/-- `sort_keys=True`: the `extra` entries are emitted in ascending key
order.  (Python dict keys are unique, so any sort by key is canonical.) -/
def sortExtra (l : List (String × JVal)) : List (String × JVal) :=
  l.insertionSort extraKeyLe

/-! ## SHA-256 (models `hashlib.sha256(...).hexdigest()`)

`context_hash` hashes the canonical serialization with SHA-256.  The
digest is embedded as a plain executable function on `Nat`s (32-bit words
are naturals reduced mod `2^32`); none of the claims depends on concrete
digest values, only on `sha256hex` being a function of its input string. -/

/-- `2^32`, the 32-bit word modulus. -/
def M32 : Nat := 4294967296

/-- Rotate a 32-bit word right by `n`. -/
def rotr32 (x n : Nat) : Nat :=
  ((x >>> n) ||| ((x <<< (32 - n)) % M32)) % M32

/-- SHA-256 round constants (FIPS 180-4 section 4.2.2, written in
decimal). -/
def sha256K : List Nat :=
  [1116352408, 1899447441, 3049323471, 3921009573,
   961987163, 1508970993, 2453635748, 2870763221,
   3624381080, 310598401, 607225278, 1426881987,
   1925078388, 2162078206, 2614888103, 3248222580,
   3835390401, 4022224774, 264347078, 604807628,
   770255983, 1249150122, 1555081692, 1996064986,
   2554220882, 2821834349, 2952996808, 3210313671,
   3336571891, 3584528711, 113926993, 338241895,
   666307205, 773529912, 1294757372, 1396182291,
   1695183700, 1986661051, 2177026350, 2456956037,
   2730485921, 2820302411, 3259730800, 3345764771,
   3516065817, 3600352804, 4094571909, 275423344,
   430227734, 506948616, 659060556, 883997877,
   958139571, 1322822218, 1537002063, 1747873779,
   1955562222, 2024104815, 2227730452, 2361852424,
   2428436474, 2756734187, 3204031479, 3329325298]

/-- SHA-256 initial hash value (FIPS 180-4 section 5.3.3, in decimal). -/
def sha256H0 : List Nat :=
  [1779033703, 3144134277, 1013904242, 2773480762,
   1359893119, 2600822924, 528734635, 1541459225]

/-- Group bytes into big-endian 32-bit words. -/
def bytesToWords : List Nat → List Nat
  | b0 :: b1 :: b2 :: b3 :: rest =>
      (((b0 * 256 + b1) * 256 + b2) * 256 + b3) :: bytesToWords rest
  | _ => []

/-- SHA-256 padding: `0x80`, zeros to 56 mod 64, then the 64-bit
big-endian bit length. -/
def sha256pad (msg : List Nat) : List Nat :=
  let bitLen := msg.length * 8
  let zeros := (64 - ((msg.length + 9) % 64)) % 64
  msg ++ [0x80] ++ List.replicate zeros 0 ++
    (List.range 8).map (fun i => (bitLen >>> (8 * (7 - i))) % 256)

/-- Split the padded message into 64-byte blocks. -/
def chunks64 (l : List Nat) : List (List Nat) :=
  if h : l = [] then [] else l.take 64 :: chunks64 (l.drop 64)
termination_by l.length
decreasing_by
  simp only [List.length_drop]
  cases l with
  | nil => exact absurd rfl h
  | cons a t => simp only [List.length_cons]; omega

/-- Extend the 16 message words to the 64-word schedule. -/
def sha256schedule (w16 : List Nat) : List Nat :=
  (List.range 48).foldl
    (fun w _ =>
      let n := w.length
      let x15 := w.getD (n - 15) 0
      let x2 := w.getD (n - 2) 0
      let s0 := rotr32 x15 7 ^^^ rotr32 x15 18 ^^^ (x15 >>> 3)
      let s1 := rotr32 x2 17 ^^^ rotr32 x2 19 ^^^ (x2 >>> 10)
      w ++ [(w.getD (n - 16) 0 + s0 + w.getD (n - 7) 0 + s1) % M32])
    w16

/-- One compression round; the state is the 8-word list `[a,b,c,d,e,f,g,h]`. -/
def sha256round (st : List Nat) (kw : Nat × Nat) : List Nat :=
  let a := st.getD 0 0
  let b := st.getD 1 0
  let c := st.getD 2 0
  let d := st.getD 3 0
  let e := st.getD 4 0
  let f := st.getD 5 0
  let g := st.getD 6 0
  let hh := st.getD 7 0
  let s1 := rotr32 e 6 ^^^ rotr32 e 11 ^^^ rotr32 e 25
  let ch := (e &&& f) ^^^ ((e ^^^ 4294967295) &&& g)
  let temp1 := (hh + s1 + ch + kw.1 + kw.2) % M32
  let s0 := rotr32 a 2 ^^^ rotr32 a 13 ^^^ rotr32 a 22
  let maj := (a &&& b) ^^^ (a &&& c) ^^^ (b &&& c)
  let temp2 := (s0 + maj) % M32
  [(temp1 + temp2) % M32, a, b, c, (d + temp1) % M32, e, f, g]

/-- Compress one 64-byte block into the running hash. -/
def sha256chunk (hash : List Nat) (block : List Nat) : List Nat :=
  let w := sha256schedule (bytesToWords block)
  let st := (sha256K.zip w).foldl sha256round hash
  List.zipWith (fun x y => (x + y) % M32) hash st

/-- Eight-hex-digit rendering of a 32-bit word. -/
def toHex8 (n : Nat) : String :=
  String.mk ((List.range 8).map (fun i => hexDigit ((n >>> (28 - 4 * i)) % 16)))

/-- SHA-256 hex digest of a string's UTF-8 bytes
(models `hashlib.sha256(encoded).hexdigest()`). -/
def sha256hex (s : String) : String :=
  let bytes := (s.toUTF8.toList).map (fun b => b.toNat)
  String.join (((chunks64 (sha256pad bytes)).foldl sha256chunk sha256H0).map toHex8)

/-! ## EQC context model (`src/core/eqc/context.py`) -/

/-- `ActionContext` (the `action` sub-record of an `EQCContext`). -/
structure ActionContext where
  action : String
  asset : String
  amount : Option Int := none
  recipient : Option String := none
deriving DecidableEq

/-- `DeviceContext`. -/
structure DeviceContext where
  device_id : String
  device_type : String
  os : String
  trusted : Bool := false
  first_seen_ts : Option Int := none
deriving DecidableEq

/-- `NetworkContext`. -/
structure NetworkContext where
  network : String
  fee_rate : Option Int := none
  peer_count : Option Int := none
deriving DecidableEq

/-- `UserContext`. -/
structure UserContext where
  user_id : Option String := none
  biometric_available : Bool := false
  pin_set : Bool := false
deriving DecidableEq

/-- `EQCContext`: the immutable snapshot passed into EQC.  The four
sub-records are required fields, as in the dataclass declaration; the
open-ended `extra` dict is modelled as an association list of flat JSON
values. -/
structure EQCContext where
  action : ActionContext
  device : DeviceContext
  network : NetworkContext
  user : UserContext
  timestamp : Int
  extra : List (String × JVal) := []
deriving DecidableEq

/-- Canonical rendering of the `action` sub-record (keys in sorted order:
`action`, `amount`, `asset`, `recipient`). -/
def ActionContext.to_json (a : ActionContext) : String :=
  jsonObj [("action", jsonStr a.action), ("amount", jsonOptInt a.amount),
           ("asset", jsonStr a.asset), ("recipient", jsonOptStr a.recipient)]

/-- Canonical rendering of the `device` sub-record (keys sorted:
`device_id`, `device_type`, `first_seen_ts`, `os`, `trusted`). -/
def DeviceContext.to_json (d : DeviceContext) : String :=
  jsonObj [("device_id", jsonStr d.device_id), ("device_type", jsonStr d.device_type),
           ("first_seen_ts", jsonOptInt d.first_seen_ts), ("os", jsonStr d.os),
           ("trusted", jsonBool d.trusted)]

/-- Canonical rendering of the `network` sub-record (keys sorted:
`fee_rate`, `network`, `peer_count`). -/
def NetworkContext.to_json (n : NetworkContext) : String :=
  jsonObj [("fee_rate", jsonOptInt n.fee_rate), ("network", jsonStr n.network),
           ("peer_count", jsonOptInt n.peer_count)]

/-- Canonical rendering of the `user` sub-record (keys sorted:
`biometric_available`, `pin_set`, `user_id`). -/
def UserContext.to_json (u : UserContext) : String :=
  jsonObj [("biometric_available", jsonBool u.biometric_available),
           ("pin_set", jsonBool u.pin_set), ("user_id", jsonOptStr u.user_id)]

/-- Canonical rendering of the `extra` map: entries in ascending key order
(`sort_keys=True`). -/
def extraJson (l : List (String × JVal)) : String :=
  jsonObj ((sortExtra l).map (fun kv => (kv.1, kv.2.dump)))

/-- `json.dumps(self.to_dict(), sort_keys=True)`: the canonical key-ordered
serialization of a context (top-level keys sorted: `action`, `device`,
`extra`, `network`, `timestamp`, `user`). -/
def EQCContext.canonical_json (c : EQCContext) : String :=
  jsonObj [("action", c.action.to_json), ("device", c.device.to_json),
           ("extra", extraJson c.extra), ("network", c.network.to_json),
           ("timestamp", toString c.timestamp), ("user", c.user.to_json)]

/-- `EQCContext.context_hash`: SHA-256 hex digest of the canonical
serialization. -/
def EQCContext.context_hash (c : EQCContext) : String :=
  sha256hex c.canonical_json

/-- Python's `str.lower()` (ASCII case folding), written over the
character list so that it is kernel-computable. -/
def strLower (s : String) : String :=
  String.mk (s.data.map Char.toLower)

/-! ## EQC verdicts (`src/core/eqc/verdicts.py`) -/

/-- `VerdictType`: ALLOW / DENY / STEP_UP. -/
inductive VerdictType where
  | ALLOW
  | DENY
  | STEP_UP
deriving DecidableEq

/-- The str-enum value of a verdict type (used in error messages). -/
def VerdictType.value : VerdictType → String
  | .ALLOW => "ALLOW"
  | .DENY => "DENY"
  | .STEP_UP => "STEP_UP"

/-- `ReasonCode`: stable reason identifiers. -/
inductive ReasonCode where
  | POLICY_RULE_MATCH
  | MISSING_CONTEXT
  | INVALID_CONTEXT
  | HIGH_RISK_SCORE
  | NEW_DEVICE
  | NEW_RECIPIENT
  | LARGE_AMOUNT
  | UNUSUAL_FEE
  | RAPID_SUCCESSIVE_ACTIONS
  | GEO_ANOMALY
  | TIME_ANOMALY
  | BROWSER_CONTEXT_BLOCKED
  | EXTENSION_CONTEXT_BLOCKED
  | SEED_EXPOSURE_RISK
  | MINT_REDEEM_REQUIRES_STEP_UP
  | POLICY_DISALLOWS_ACTION
deriving DecidableEq

/-- Wrap an optional integer as a JSON value (for structured details). -/
def JVal.ofOptInt : Option Int → JVal
  | none => .jnull
  | some n => .jint n

/-- `Reason`: a single explanation attached to a verdict. -/
structure Reason where
  code : ReasonCode
  message : String
  details : List (String × JVal) := []
deriving DecidableEq

/-- `StepUp`: additional requirements demanded before the operation. -/
structure StepUp where
  requirements : List String := []
  message : String := "Additional verification required."
deriving DecidableEq

/-- `Verdict`: the final EQC output. -/
structure Verdict where
  type : VerdictType
  reasons : List Reason := []
  step_up : Option StepUp := none
deriving DecidableEq

/-- `Verdict.allow` convenience constructor. -/
def Verdict.allow (reasons : List Reason) : Verdict :=
  { type := .ALLOW, reasons := reasons, step_up := none }

/-- `Verdict.deny` convenience constructor. -/
def Verdict.deny (reasons : List Reason) : Verdict :=
  { type := .DENY, reasons := reasons, step_up := none }

/-- `Verdict.step_up` convenience constructor (named `stepUp` here because
the Lean structure already has a field called `step_up`). -/
def Verdict.stepUp (su : StepUp) (reasons : List Reason) : Verdict :=
  { type := .STEP_UP, reasons := reasons, step_up := some su }

/-! ## EQC policy engine (`src/core/eqc/policy.py`) -/

/-- `PolicyRule`: a named predicate / outcome pair.  `when` is the match
predicate; `verdict` may return `none` to let evaluation continue. -/
structure PolicyRule where
  name : String
  when : EQCContext → Bool
  verdict : EQCContext → Option Verdict

/-- `EQCPolicy`: an ordered rule list. -/
structure EQCPolicy where
  rules : List PolicyRule := []

/-- Attach the `POLICY_RULE_MATCH` reason to a terminal verdict unless one
is already present (the tail of `EQCPolicy.evaluate`'s loop body). -/
def annotateRuleMatch (rule : PolicyRule) (out : Verdict) : Verdict :=
  if out.reasons.any (fun r => decide (r.code = ReasonCode.POLICY_RULE_MATCH)) then out
  else
    { type := out.type,
      reasons :=
        { code := .POLICY_RULE_MATCH,
          message := "Matched policy rule: " ++ rule.name,
          details := [("rule", JVal.jstr rule.name)] } :: out.reasons,
      step_up := out.step_up }

/-- The ordered first-terminal-verdict walk of `EQCPolicy.evaluate`; an
exhausted rule list yields the explicit `DEFAULT_ALLOW` verdict. -/
def evalRules : List PolicyRule → EQCContext → Verdict
  | [], _ =>
      Verdict.allow
        [{ code := .POLICY_RULE_MATCH,
           message := "No policy rules blocked the action.",
           details := [("rule", JVal.jstr "DEFAULT_ALLOW")] }]
  | rule :: rest, ctx =>
      if rule.when ctx then
        match rule.verdict ctx with
        | some out => annotateRuleMatch rule out
        | none => evalRules rest ctx
      else evalRules rest ctx

/-- `EQCPolicy.evaluate`.  The Python source first guards against `None`
sub-records (returning DENY / MISSING_CONTEXT); in this typed embedding the
four sub-records are always present, so that branch is unreachable and the
walk over the ordered rule list is entered directly. -/
def EQCPolicy.evaluate (p : EQCPolicy) (ctx : EQCContext) : Verdict :=
  evalRules p.rules ctx

/-- `_best_step_up_requirements`: biometric, then pin, falling back to
`local_confirmation` — never empty. -/
def best_step_up_requirements (ctx : EQCContext) : List String :=
  let req :=
    (if ctx.user.biometric_available then ["biometric"] else []) ++
    (if ctx.user.pin_set then ["pin"] else [])
  if req = [] then ["local_confirmation"] else req

/-- `default_policy`: the baseline v1 rule set, hard blocks first. -/
def default_policy : EQCPolicy :=
  { rules :=
    [ { name := "HARD_BLOCK_BROWSER_CONTEXT",
        when := fun ctx => decide (strLower ctx.device.device_type = "browser"),
        verdict := fun ctx => some (Verdict.deny
          [{ code := .BROWSER_CONTEXT_BLOCKED,
             message := "Browser context is not permitted for sensitive operations.",
             details := [("device_type", JVal.jstr ctx.device.device_type)] }]) },
      { name := "HARD_BLOCK_EXTENSION_CONTEXT",
        when := fun ctx =>
          decide (strLower ctx.device.device_type = "extension") ||
          decide (strLower ctx.device.device_type = "browser_extension"),
        verdict := fun ctx => some (Verdict.deny
          [{ code := .EXTENSION_CONTEXT_BLOCKED,
             message := "Extension context is not permitted for signing or seed handling.",
             details := [("device_type", JVal.jstr ctx.device.device_type)] }]) },
      { name := "STEP_UP_FOR_MINT_REDEEM",
        when := fun ctx =>
          decide (strLower ctx.action.action = "mint") ||
          decide (strLower ctx.action.action = "redeem") ||
          (decide (strLower ctx.action.asset = "digidollar") &&
            (decide (strLower ctx.action.action = "issue") ||
             decide (strLower ctx.action.action = "burn"))),
        verdict := fun ctx => some (Verdict.stepUp
          { requirements := best_step_up_requirements ctx,
            message := "Mint/Redeem requires step-up verification." }
          [{ code := .MINT_REDEEM_REQUIRES_STEP_UP,
             message := "Sensitive monetary action requires additional verification.",
             details := [("action", JVal.jstr ctx.action.action),
                         ("asset", JVal.jstr ctx.action.asset)] }]) },
      { name := "STEP_UP_FOR_LARGE_AMOUNT",
        when := fun ctx => decide (10000000 ≤ ctx.action.amount.getD 0),
        verdict := fun ctx => some (Verdict.stepUp
          { requirements := best_step_up_requirements ctx,
            message := "Large amount requires step-up verification." }
          [{ code := .LARGE_AMOUNT,
             message := "Amount exceeds baseline step-up threshold.",
             details := [("amount", JVal.ofOptInt ctx.action.amount)] }]) },
      { name := "STEP_UP_FOR_UNTRUSTED_DEVICE",
        when := fun ctx => !ctx.device.trusted,
        verdict := fun ctx => some (Verdict.stepUp
          { requirements := best_step_up_requirements ctx,
            message := "Untrusted device requires step-up verification." }
          [{ code := .NEW_DEVICE,
             message := "Device is not yet trusted.",
             details := [("device_id", JVal.jstr ctx.device.device_id)] }]) } ] }

/-- `EQCDecision`: verdict plus context hash (`src/core/eqc/engine.py`).
The classifier `signals` map is audit-only telemetry that never influences
the verdict, so it is omitted from the model. -/
structure EQCDecision where
  verdict : Verdict
  context_hash : String

/-- `EQCEngine.decide` restricted to its decision-relevant output: run the
policy and pair the verdict with the context hash. -/
def EQCPolicy.decide (p : EQCPolicy) (ctx : EQCContext) : EQCDecision :=
  { verdict := p.evaluate ctx, context_hash := ctx.context_hash }

/-! ## WSQK scopes (`src/core/wsqk/scopes.py`) -/

/-- `WSQKScope`: the execution capability boundaries. -/
structure WSQKScope where
  wallet_id : String
  action : String
  context_hash : String
  not_before : Int
  expires_at : Int
deriving DecidableEq

/-- `WSQKScope.is_active`: inside the inclusive time window. -/
def WSQKScope.is_active (s : WSQKScope) (now : Int) : Bool :=
  decide (s.not_before ≤ now ∧ now ≤ s.expires_at)

/-- `WSQKScope.from_ttl` with the wall clock passed explicitly. -/
def WSQKScope.from_ttl (wallet_id action context_hash : String)
    (ttl_seconds : Int) (now : Int) : WSQKScope :=
  { wallet_id := wallet_id, action := action, context_hash := context_hash,
    not_before := now, expires_at := now + ttl_seconds }

/-! ## WSQK context binding (`src/core/wsqk/context_bind.py`) -/

/-- `BoundScope`: a scope created from an EQC-approved decision. -/
structure BoundScope where
  scope : WSQKScope
  eqc_context_hash : String
deriving DecidableEq

/-- `bind_scope_from_eqc`: create a scope only when EQC returned ALLOW;
a `WSQKBindError` is modelled as the `Except.error` branch. -/
def bind_scope_from_eqc (decision : EQCDecision) (wallet_id action : String)
    (ttl_seconds : Int) (now : Int) : Except String BoundScope :=
  if decision.verdict.type ≠ VerdictType.ALLOW then
    .error ("Cannot bind WSQK scope without EQC ALLOW (got " ++
            decision.verdict.type.value ++ ").")
  else
    .ok { scope := WSQKScope.from_ttl wallet_id action decision.context_hash ttl_seconds now,
          eqc_context_hash := decision.context_hash }

/-! ## WSQK executor (`src/core/wsqk/executor.py`) -/

/-- `WSQKExecutionResult`. -/
structure WSQKExecutionResult (α : Type) where
  scope : WSQKScope
  result : α

/-- The conjunction of the four scope checks of `execute_with_scope`
(active window, wallet, case-insensitive action, context hash). -/
def scope_checks_pass (scope : WSQKScope) (context : EQCContext)
    (wallet_id action : String) (now : Int) : Bool :=
  scope.is_active now &&
  decide (scope.wallet_id = wallet_id) &&
  decide (strLower scope.action = strLower action) &&
  decide (scope.context_hash = context.context_hash)

/-- `execute_with_scope`: enforce the scope constraints in source order,
then run the caller-supplied executor; a `WSQKExecutionError` is modelled
as the `Except.error` branch carrying the wrapped message. -/
def execute_with_scope {α : Type} (scope : WSQKScope) (context : EQCContext)
    (wallet_id action : String) (executor : EQCContext → α) (now : Int) :
    Except String (WSQKExecutionResult α) :=
  if ¬ scope.is_active now then
    .error "WSQK scope is not active (outside permitted time window)."
  else if scope.wallet_id ≠ wallet_id then
    .error "WSQK scope wallet_id mismatch."
  else if strLower scope.action ≠ strLower action then
    .error "WSQK scope action mismatch."
  else if scope.context_hash ≠ context.context_hash then
    .error "WSQK scope context_hash mismatch."
  else
    .ok { scope := scope, result := executor context }

/-- Number of times `execute_with_scope` invokes its executor: once when
every check passes, never otherwise. -/
def execute_with_scope_calls (scope : WSQKScope) (context : EQCContext)
    (wallet_id action : String) (now : Int) : Nat :=
  if scope_checks_pass scope context wallet_id action now then 1 else 0

/-! ## WSQK session (`src/core/wsqk/session.py`) -/

/-- `WSQKSession`: TTL window plus the set of consumed one-time nonces
(modelled as a list used only through membership). -/
structure WSQKSession where
  ttl_seconds : Int
  session_id : String
  created_at : Int
  expires_at : Int
  used_nonces : List String
deriving DecidableEq

/-- Construct a session the way `__post_init__` does:
`expires_at = created_at + ttl_seconds`, no nonce used yet. -/
def WSQKSession.make (ttl_seconds : Int) (session_id : String)
    (created_at : Int) : WSQKSession :=
  { ttl_seconds := ttl_seconds, session_id := session_id,
    created_at := created_at, expires_at := created_at + ttl_seconds,
    used_nonces := [] }

/-- `WSQKSession.is_active`: inside the inclusive time window. -/
def WSQKSession.is_active (s : WSQKSession) (now : Int) : Bool :=
  decide (s.created_at ≤ now ∧ now ≤ s.expires_at)

/-- `WSQKSession.consume_nonce`: mark a nonce as used, rejecting re-use;
the session mutation becomes an explicitly returned new session state. -/
def WSQKSession.consume_nonce (s : WSQKSession) (nonce : String) (now : Int) :
    Except String WSQKSession :=
  if ¬ s.is_active now then
    .error "WSQK session is not active (expired or not yet valid)."
  else if nonce ∈ s.used_nonces then
    .error "WSQK nonce replay detected (nonce already used)."
  else
    .ok { s with used_nonces := nonce :: s.used_nonces }

/-! ## WSQK guard (`src/core/wsqk/guard.py`) -/

/-- `WSQKGuardedResult`. -/
structure WSQKGuardedResult (α : Type) where
  scope : WSQKScope
  session_id : String
  nonce : String
  result : α

/-- `execute_guarded`: session active, nonce consumed exactly once, then
the full scope check.  The pair's second component is the session state
after the call — note that a nonce consumed before a failing scope check
stays consumed, as in the mutable Python session. -/
def execute_guarded {α : Type} (scope : WSQKScope) (session : WSQKSession)
    (nonce : String) (context : EQCContext) (wallet_id action : String)
    (executor : EQCContext → α) (now : Int) :
    Except String (WSQKGuardedResult α) × WSQKSession :=
  if ¬ session.is_active now then
    (.error "WSQK session is not active (expired or not yet valid).", session)
  else
    match session.consume_nonce nonce now with
    | .error e => (.error e, session)
    | .ok s2 =>
      match execute_with_scope scope context wallet_id action executor now with
      | .error e => (.error e, s2)
      | .ok r => (.ok { scope := r.scope, session_id := s2.session_id,
                        nonce := nonce, result := r.result }, s2)

/-- Number of times `execute_guarded` invokes its executor. -/
def execute_guarded_calls (scope : WSQKScope) (session : WSQKSession)
    (nonce : String) (context : EQCContext) (wallet_id action : String)
    (now : Int) : Nat :=
  if session.is_active now && decide (nonce ∉ session.used_nonces) then
    execute_with_scope_calls scope context wallet_id action now
  else 0

/-- Whether an `Except` result is a success. -/
def exceptIsOk {ε γ : Type} : Except ε γ → Bool
  | .ok _ => true
  | .error _ => false

/-! ## Guardian approval workflow
(`src/core/guardian_wallet/models.py`, `src/core/guardian-wallet/engine.py`) -/

namespace Guardian

/-- `RuleScope`: what a rule applies to. -/
inductive RuleScope where
  | WALLET
  | ACCOUNT
  | ASSET
deriving DecidableEq

/-- `RuleAction`: the protected operation kind. -/
inductive RuleAction where
  | SEND
  | DD_MINT
  | DD_REDEEM
  | ASSET_ISSUE
  | ASSET_BURN
  | DEVICE_BIND
  | SETTINGS_CHANGE
deriving DecidableEq

/-- The str-enum value of a rule action (used when building request ids). -/
def RuleAction.value : RuleAction → String
  | .SEND => "SEND"
  | .DD_MINT => "DD_MINT"
  | .DD_REDEEM => "DD_REDEEM"
  | .ASSET_ISSUE => "ASSET_ISSUE"
  | .ASSET_BURN => "ASSET_BURN"
  | .DEVICE_BIND => "DEVICE_BIND"
  | .SETTINGS_CHANGE => "SETTINGS_CHANGE"

/-- `ApprovalStatus`: the lifecycle state of an approval request. -/
inductive ApprovalStatus where
  | PENDING
  | APPROVED
  | REJECTED
  | EXPIRED
  | CANCELLED
deriving DecidableEq

/-- `GuardianVerdict`: outcome of guardian evaluation. -/
inductive GuardianVerdict where
  | ALLOW
  | REQUIRE_APPROVAL
  | BLOCK
deriving DecidableEq

/-- `GuardianRule`. -/
structure GuardianRule where
  id : String
  scope : RuleScope
  action : RuleAction
  account_id : Option String := none
  asset_id : Option String := none
  threshold_value : Option Int := none
  min_approvals : Int := 1
  guardian_ids : List String := []
  description : Option String := none
deriving DecidableEq

/-- `ActionContext` (the guardian engine's own dataclass in `engine.py`). -/
structure ActionContext where
  action : RuleAction
  wallet_id : Option String := none
  account_id : Option String := none
  asset_id : Option String := none
  value : Option Int := none
  description : Option String := none
deriving DecidableEq

/-- `ApprovalDecision`: one guardian's recorded vote. -/
structure ApprovalDecision where
  guardian_id : String
  status : ApprovalStatus
  reason : Option String := none
deriving DecidableEq

/-- `ApprovalRequest`. -/
structure ApprovalRequest where
  id : String
  rule_id : String
  action : RuleAction
  scope : RuleScope
  wallet_id : Option String := none
  account_id : Option String := none
  asset_id : Option String := none
  value : Option Int := none
  description : Option String := none
  required_guardians : List String := []
  decisions : List ApprovalDecision := []
  status : ApprovalStatus := .PENDING
deriving DecidableEq

/-- `ApprovalRequest.approvals_count`: number of APPROVED decisions. -/
def ApprovalRequest.approvals_count (r : ApprovalRequest) : Nat :=
  (r.decisions.filter (fun d => decide (d.status = ApprovalStatus.APPROVED))).length

/-- `ApprovalRequest.rejections_count`: number of REJECTED decisions. -/
def ApprovalRequest.rejections_count (r : ApprovalRequest) : Nat :=
  (r.decisions.filter (fun d => decide (d.status = ApprovalStatus.REJECTED))).length

/-- The per-rule test of `GuardianEngine._find_matching_rules`: action must
match; ACCOUNT-scoped rules additionally filter on `account_id`,
ASSET-scoped rules on `asset_id`; `wallet_id` is never compared. -/
def matches_rule (r : GuardianRule) (ctx : ActionContext) : Bool :=
  decide (r.action = ctx.action) &&
  !(decide (r.scope = RuleScope.ACCOUNT) && decide (r.account_id ≠ ctx.account_id)) &&
  !(decide (r.scope = RuleScope.ASSET) && decide (r.asset_id ≠ ctx.asset_id))

/-- `GuardianEngine._find_matching_rules`.  The engine's `rules` dict is
modelled as an association list in insertion order (Python dict iteration
order); matching walks the values in that order. -/
def find_matching_rules (rules : List (String × GuardianRule))
    (ctx : ActionContext) : List GuardianRule :=
  (rules.map Prod.snd).filter (fun r => matches_rule r ctx)

/-- The per-rule approval test of `GuardianEngine._requires_approval`: a
rule without a threshold always requires approval; a rule with a threshold
requires approval when the context has a value meeting or exceeding it. -/
def requires_approval_rule (ctx : ActionContext) (r : GuardianRule) : Bool :=
  match r.threshold_value with
  | none => true
  | some t =>
    match ctx.value with
    | some v => decide (t ≤ v)
    | none => false

/-- `GuardianEngine._requires_approval`: the first matching rule that
requires approval, if any. -/
def requires_approval (ctx : ActionContext) (rules : List GuardianRule) :
    Option GuardianRule :=
  rules.find? (fun r => requires_approval_rule ctx r)

/-- `GuardianEngine._build_approval_request`. -/
def build_approval_request (ctx : ActionContext) (rule : GuardianRule) :
    ApprovalRequest :=
  { id := "req_" ++ ctx.action.value ++ "_" ++ rule.id,
    rule_id := rule.id,
    action := ctx.action,
    scope := rule.scope,
    wallet_id := ctx.wallet_id,
    account_id := ctx.account_id,
    asset_id := ctx.asset_id,
    value := ctx.value,
    description := ctx.description,
    required_guardians := rule.guardian_ids,
    decisions := [],
    status := .PENDING }

/-- A hard-block rule: no threshold and `min_approvals == 0`. -/
def is_block_rule (r : GuardianRule) : Bool :=
  decide (r.threshold_value = none) && decide (r.min_approvals = 0)

/-- `GuardianEngine.evaluate`: no matching rule allows; any matching block
rule blocks; otherwise the first matching rule that requires approval
yields a REQUIRE_APPROVAL with a fresh request, and ALLOW if none does. -/
def evaluate (rules : List (String × GuardianRule)) (ctx : ActionContext) :
    GuardianVerdict × Option ApprovalRequest :=
  let matching := find_matching_rules rules ctx
  if matching.isEmpty then (.ALLOW, none)
  else if matching.any is_block_rule then (.BLOCK, none)
  else
    match requires_approval ctx matching with
    | none => (.ALLOW, none)
    | some rule => (.REQUIRE_APPROVAL, some (build_approval_request ctx rule))

/-- `GuardianEngine.apply_decision`: drop any prior vote by the same
guardian, append the new vote, then recompute the status — a REJECTED vote
forces REJECTED; otherwise the request becomes APPROVED when the approvals
count reaches the originating rule's `min_approvals` (the rule is looked
up in the engine's rules dict by `rule_id`); mutation of the request is
modelled by returning the updated request. -/
def apply_decision (rules : List (String × GuardianRule))
    (request : ApprovalRequest) (guardian_id : String)
    (status : ApprovalStatus) (reason : Option String) : ApprovalRequest :=
  let ds := (request.decisions.filter (fun d => decide (d.guardian_id ≠ guardian_id))) ++
            [{ guardian_id := guardian_id, status := status, reason := reason }]
  let request1 := { request with decisions := ds }
  if status = ApprovalStatus.REJECTED then
    { request1 with status := .REJECTED }
  else
    match rules.lookup request1.rule_id with
    | some rule =>
        if (request1.approvals_count : Int) ≥ rule.min_approvals then
          { request1 with status := .APPROVED }
        else request1
    | none => request1

end Guardian

/-! ## Concrete fixtures used by witnesses and counterexamples -/

/-- A benign context: trusted mobile device, small send. -/
def ctxW : EQCContext :=
  { action := { action := "send", asset := "DGB", amount := some 500, recipient := some "DAddr1" },
    device := { device_id := "d1", device_type := "mobile", os := "ios", trusted := true },
    network := { network := "mainnet", fee_rate := some 10, peer_count := some 8 },
    user := { user_id := some "u1", biometric_available := true, pin_set := true },
    timestamp := 1700000000,
    extra := [] }

/-- A browser-device context carrying a large amount. -/
def ctxBrowserLarge : EQCContext :=
  { ctxW with
    device := { device_id := "d1", device_type := "browser", os := "linux", trusted := true },
    action := { action := "send", asset := "DGB", amount := some 10000000 } }

/-- A trusted-mobile context carrying a large amount. -/
def ctxLargeW : EQCContext :=
  { ctxW with action := { action := "send", asset := "DGB", amount := some 10000000 } }

/-- An ALLOW decision over `ctxW`'s hash. -/
def allowDecisionW : EQCDecision :=
  { verdict := Verdict.allow [], context_hash := ctxW.context_hash }

/-- A DENY decision. -/
def denyDecisionW : EQCDecision :=
  { verdict := Verdict.deny [], context_hash := "h0" }

/-- The bound scope produced from `allowDecisionW` at time 0 with ttl 60. -/
def boundW : BoundScope :=
  { scope := { wallet_id := "w1", action := "send", context_hash := ctxW.context_hash,
               not_before := 0, expires_at := 60 },
    eqc_context_hash := ctxW.context_hash }

/-- A fresh session created at time 0 with ttl 60. -/
def sessionW : WSQKSession := WSQKSession.make 60 "s1" 0

/-- A scope whose context hash cannot equal `ctxW`'s hash. -/
def scopeMismatchW : WSQKScope :=
  { wallet_id := "w1", action := "send", context_hash := ctxW.context_hash ++ "x",
    not_before := 0, expires_at := 60 }

/-- A scope bound to `ctxW` but to a different wallet. -/
def scopeWrongWalletW : WSQKScope :=
  { wallet_id := "w2", action := "send", context_hash := ctxW.context_hash,
    not_before := 0, expires_at := 60 }

/-- An `extra` map in one insertion order. -/
def extraOrderA : List (String × JVal) := [("k1", JVal.jint 1), ("k2", JVal.jstr "v")]

/-- The same `extra` map in the opposite insertion order. -/
def extraOrderB : List (String × JVal) := [("k2", JVal.jstr "v"), ("k1", JVal.jint 1)]

/-- `ctxW` with `extraOrderA`. -/
def ctxExtraA : EQCContext := { ctxW with extra := extraOrderA }

/-- `ctxW` with `extraOrderB`. -/
def ctxExtraB : EQCContext := { ctxW with extra := extraOrderB }

namespace Guardian

/-- A one-approval threshold rule. -/
def ruleC2 : GuardianRule :=
  { id := "r1", scope := .WALLET, action := .SEND, threshold_value := some 100,
    min_approvals := 1, guardian_ids := ["g1", "g2"] }

/-- Engine catalog holding `ruleC2`. -/
def rulesC2 : List (String × GuardianRule) := [("r1", ruleC2)]

/-- A request already REJECTED by guardian g1. -/
def reqC2 : ApprovalRequest :=
  { id := "q1", rule_id := "r1", action := .SEND, scope := .WALLET, value := some 1000,
    required_guardians := ["g1", "g2"],
    decisions := [{ guardian_id := "g1", status := .REJECTED }],
    status := .REJECTED }

/-- A two-approval quorum rule. -/
def ruleQuorum : GuardianRule :=
  { id := "rq", scope := .WALLET, action := .SEND, threshold_value := some 1000,
    min_approvals := 2, guardian_ids := ["g1", "g2"] }

/-- Engine catalog holding `ruleQuorum`. -/
def rulesQuorum : List (String × GuardianRule) := [("rq", ruleQuorum)]

/-- A fresh PENDING request governed by `ruleQuorum`. -/
def reqQuorum : ApprovalRequest :=
  { id := "q2", rule_id := "rq", action := .SEND, scope := .WALLET, value := some 5000,
    required_guardians := ["g1", "g2"], decisions := [], status := .PENDING }

/-- A threshold rule listed first in the catalog. -/
def ruleB1 : GuardianRule :=
  { id := "r1", scope := .WALLET, action := .SEND, threshold_value := some 100,
    min_approvals := 1, guardian_ids := ["g1"] }

/-- A no-threshold (always-requires-approval) rule listed second. -/
def ruleB2 : GuardianRule :=
  { id := "r2", scope := .WALLET, action := .SEND, threshold_value := none,
    min_approvals := 1, guardian_ids := ["g2"] }

/-- Catalog where the first matching rule does not require approval but the
second does. -/
def rulesB : List (String × GuardianRule) := [("r1", ruleB1), ("r2", ruleB2)]

/-- A SEND for 50 units: below `ruleB1`'s threshold. -/
def ctxSmall : ActionContext :=
  { action := .SEND, wallet_id := some "w1", account_id := some "a1", value := some 50 }

/-- A WALLET-scoped rule fixture. -/
def ruleWalletW : GuardianRule :=
  { id := "rw", scope := .WALLET, action := .SEND, threshold_value := some 10,
    min_approvals := 1, guardian_ids := ["g1"] }

/-- Catalog holding `ruleWalletW`. -/
def rulesW10 : List (String × GuardianRule) := [("rw", ruleWalletW)]

/-- A SEND context with arbitrary wallet / account / asset identifiers. -/
def ctxOtherIds : ActionContext :=
  { action := .SEND, wallet_id := some "wX", account_id := some "aX",
    asset_id := some "assetX", value := some 7 }

end Guardian

/-! ## Helper lemmas about the execution gate -/

/-- When every scope check passes, `execute_with_scope` runs the executor
once and wraps its result with the scope used. -/
theorem execute_with_scope_ok {α : Type} (scope : WSQKScope) (context : EQCContext)
    (wallet_id action : String) (executor : EQCContext → α) (now : Int)
    (h : scope_checks_pass scope context wallet_id action now = true) :
    execute_with_scope scope context wallet_id action executor now =
      Except.ok { scope := scope, result := executor context } := by
  simp only [scope_checks_pass, Bool.and_eq_true, decide_eq_true_eq] at h
  obtain ⟨⟨⟨h1, h2⟩, h3⟩, h4⟩ := h
  simp [execute_with_scope, h1, h2, h3, h4]

/-- When some scope check fails, `execute_with_scope` raises an execution
error. -/
theorem execute_with_scope_err {α : Type} (scope : WSQKScope) (context : EQCContext)
    (wallet_id action : String) (executor : EQCContext → α) (now : Int)
    (h : scope_checks_pass scope context wallet_id action now = false) :
    ∃ e, execute_with_scope scope context wallet_id action executor now = Except.error e := by
  unfold execute_with_scope
  split
  · exact ⟨_, rfl⟩
  · next h1 =>
    split
    · exact ⟨_, rfl⟩
    · next h2 =>
      split
      · exact ⟨_, rfl⟩
      · next h3 =>
        split
        · exact ⟨_, rfl⟩
        · next h4 =>
          exfalso
          rw [not_not] at h1
          rw [not_ne_iff] at h2 h3 h4
          rw [scope_checks_pass, h1, h2, h3, h4] at h
          simp at h

/-- When the session is active, the nonce fresh and every scope check
passes, `execute_guarded` succeeds and records the nonce as consumed. -/
theorem execute_guarded_ok {α : Type} (scope : WSQKScope) (session : WSQKSession)
    (nonce : String) (context : EQCContext) (wallet_id action : String)
    (executor : EQCContext → α) (now : Int)
    (hs : session.is_active now = true)
    (hn : nonce ∉ session.used_nonces)
    (hc : scope_checks_pass scope context wallet_id action now = true) :
    execute_guarded scope session nonce context wallet_id action executor now =
      (Except.ok { scope := scope, session_id := session.session_id,
                   nonce := nonce, result := executor context },
       { session with used_nonces := nonce :: session.used_nonces }) := by
  simp [execute_guarded, WSQKSession.consume_nonce, hs, hn,
        execute_with_scope_ok scope context wallet_id action executor now hc]

/-- A nonce already recorded as consumed makes `execute_guarded` fail with
no executor invocation, whatever the other arguments are. -/
theorem execute_guarded_replay {α : Type} (scope : WSQKScope) (session : WSQKSession)
    (nonce : String) (context : EQCContext) (wallet_id action : String)
    (executor : EQCContext → α) (now : Int)
    (hn : nonce ∈ session.used_nonces) :
    exceptIsOk (execute_guarded scope session nonce context wallet_id action executor now).1 = false
    ∧ execute_guarded_calls scope session nonce context wallet_id action now = 0 := by
  constructor
  · by_cases hs : session.is_active now = true
    · simp [execute_guarded, WSQKSession.consume_nonce, hs, hn, exceptIsOk]
    · rw [Bool.not_eq_true] at hs
      simp [execute_guarded, hs, exceptIsOk]
  · simp [execute_guarded_calls, hn]

/-! ## C3: scope binding requires an ALLOW decision -/

/-- C3: for every decision whose verdict is DENY or STEP_UP,
`bind_scope_from_eqc` raises a binding error and never returns a scope; a
scope is returned only for an ALLOW verdict, and then its `context_hash`
equals the decision's `context_hash`. -/
theorem bind_scope_requires_allow (decision : EQCDecision) (wallet_id action : String)
    (ttl_seconds now : Int) :
    ((decision.verdict.type = VerdictType.DENY ∨ decision.verdict.type = VerdictType.STEP_UP) →
      ∃ e, bind_scope_from_eqc decision wallet_id action ttl_seconds now = Except.error e)
    ∧ (∀ b, bind_scope_from_eqc decision wallet_id action ttl_seconds now = Except.ok b →
        decision.verdict.type = VerdictType.ALLOW ∧
        b.scope.context_hash = decision.context_hash) := by
  constructor
  · intro h
    have hne : decision.verdict.type ≠ VerdictType.ALLOW := by
      rcases h with h | h <;> rw [h] <;> intro hc <;> exact VerdictType.noConfusion hc
    refine ⟨"Cannot bind WSQK scope without EQC ALLOW (got " ++
      decision.verdict.type.value ++ ").", ?_⟩
    rw [bind_scope_from_eqc, if_pos hne]
  · intro b hb
    by_cases hal : decision.verdict.type = VerdictType.ALLOW
    · refine ⟨hal, ?_⟩
      rw [bind_scope_from_eqc, if_neg (not_ne_iff.mpr hal)] at hb
      injection hb with hbb
      rw [← hbb]
      rfl
    · rw [bind_scope_from_eqc, if_pos hal] at hb
      exact Except.noConfusion hb

/-- Witness for C3 at concrete inputs: a DENY decision fails to bind, an
ALLOW decision binds to a scope carrying the decision's context hash. -/
theorem bind_scope_requires_allow_witness :
    (denyDecisionW.verdict.type = VerdictType.DENY ∨
      denyDecisionW.verdict.type = VerdictType.STEP_UP)
    ∧ (∃ e, bind_scope_from_eqc denyDecisionW "w1" "send" 60 0 = Except.error e)
    ∧ bind_scope_from_eqc allowDecisionW "w1" "send" 60 0 = Except.ok boundW
    ∧ (allowDecisionW.verdict.type = VerdictType.ALLOW ∧
        boundW.scope.context_hash = allowDecisionW.context_hash) :=
  ⟨Or.inl rfl,
   (bind_scope_requires_allow denyDecisionW "w1" "send" 60 0).1 (Or.inl rfl),
   rfl,
   (bind_scope_requires_allow allowDecisionW "w1" "send" 60 0).2 boundW rfl⟩

/-! ## C4: a context-hash mismatch always blocks execution -/

/-- C4: whenever the presented context's hash differs from the scope's
`context_hash`, `execute_with_scope` raises an execution error and the
executor is never invoked — with no assumption on the time window, wallet
or action (so in particular even when those all match). -/
theorem scope_hash_mismatch_blocks {α : Type} (scope : WSQKScope) (context : EQCContext)
    (wallet_id action : String) (executor : EQCContext → α) (now : Int)
    (hne : context.context_hash ≠ scope.context_hash) :
    (∃ e, execute_with_scope scope context wallet_id action executor now = Except.error e)
    ∧ execute_with_scope_calls scope context wallet_id action now = 0 := by
  have hfail : scope_checks_pass scope context wallet_id action now = false := by
    have hdec : decide (scope.context_hash = context.context_hash) = false := by
      simp only [decide_eq_false_iff_not]
      exact fun h => hne h.symm
    simp [scope_checks_pass, hdec]
  exact ⟨execute_with_scope_err scope context wallet_id action executor now hfail,
         by simp [execute_with_scope_calls, hfail]⟩

/-- Witness for C4: a scope that is time-active with matching wallet and
action but a different context hash rejects execution. -/
theorem scope_hash_mismatch_blocks_witness :
    ctxW.context_hash ≠ scopeMismatchW.context_hash
    ∧ scopeMismatchW.is_active 0 = true
    ∧ scopeMismatchW.wallet_id = "w1"
    ∧ scopeMismatchW.action = "send"
    ∧ (∃ e, execute_with_scope scopeMismatchW ctxW "w1" "send" (fun _ => (0 : Nat)) 0 =
          Except.error e)
    ∧ execute_with_scope_calls scopeMismatchW ctxW "w1" "send" 0 = 0 := by
  have hne : ctxW.context_hash ≠ scopeMismatchW.context_hash := by
    have hproj : scopeMismatchW.context_hash = ctxW.context_hash ++ "x" := rfl
    rw [hproj]
    intro h
    have hl := congrArg String.length h
    rw [String.length_append] at hl
    have hx : "x".length = 1 := rfl
    omega
  exact ⟨hne, rfl, rfl, rfl,
    (scope_hash_mismatch_blocks scopeMismatchW ctxW "w1" "send" (fun _ => (0 : Nat)) 0 hne).1,
    (scope_hash_mismatch_blocks scopeMismatchW ctxW "w1" "send" (fun _ => (0 : Nat)) 0 hne).2⟩

/-! ## C10: WALLET-scoped rule matching ignores identifiers -/

/-- C10: a WALLET-scoped rule matches exactly when its action equals the
context's action; ACCOUNT-scoped rules additionally compare `account_id`
and ASSET-scoped rules `asset_id`; and rule matching never reads the
context's `wallet_id` for any scope. -/
theorem wallet_rule_matching :
    (∀ (r : Guardian.GuardianRule) (ctx : Guardian.ActionContext),
        r.scope = Guardian.RuleScope.WALLET →
        Guardian.matches_rule r ctx = decide (r.action = ctx.action))
    ∧ (∀ (r : Guardian.GuardianRule) (ctx : Guardian.ActionContext),
        r.scope = Guardian.RuleScope.ACCOUNT →
        Guardian.matches_rule r ctx =
          (decide (r.action = ctx.action) && decide (r.account_id = ctx.account_id)))
    ∧ (∀ (r : Guardian.GuardianRule) (ctx : Guardian.ActionContext),
        r.scope = Guardian.RuleScope.ASSET →
        Guardian.matches_rule r ctx =
          (decide (r.action = ctx.action) && decide (r.asset_id = ctx.asset_id)))
    ∧ (∀ (rules : List (String × Guardian.GuardianRule)) (ctx : Guardian.ActionContext)
        (w : Option String),
        Guardian.find_matching_rules rules { ctx with wallet_id := w } =
          Guardian.find_matching_rules rules ctx) := by
  refine ⟨?_, ?_, ?_, ?_⟩
  · intro r ctx h
    simp [Guardian.matches_rule, h]
  · intro r ctx h
    simp [Guardian.matches_rule, h, Bool.and_comm]
  · intro r ctx h
    simp [Guardian.matches_rule, h]
  · intro rules ctx w
    rfl

/-- Witness for C10: a WALLET-scoped rule matches a context with foreign
wallet / account / asset identifiers, and changing the wallet id leaves
the matching rule list unchanged. -/
theorem wallet_rule_matching_witness :
    Guardian.ruleWalletW.scope = Guardian.RuleScope.WALLET
    ∧ Guardian.matches_rule Guardian.ruleWalletW Guardian.ctxOtherIds =
        decide (Guardian.ruleWalletW.action = Guardian.ctxOtherIds.action)
    ∧ Guardian.matches_rule Guardian.ruleWalletW Guardian.ctxOtherIds = true
    ∧ Guardian.find_matching_rules Guardian.rulesW10
        { Guardian.ctxOtherIds with wallet_id := some "wY" } =
        Guardian.find_matching_rules Guardian.rulesW10 Guardian.ctxOtherIds :=
  ⟨rfl,
   wallet_rule_matching.1 Guardian.ruleWalletW Guardian.ctxOtherIds rfl,
   by decide,
   wallet_rule_matching.2.2.2 Guardian.rulesW10 Guardian.ctxOtherIds (some "wY")⟩

/-! ## C2: terminal approval statuses are not in fact preserved -/

/-- C2 counterexample: a request already REJECTED becomes APPROVED again
when a later APPROVED vote reaches the rule's quorum —
`apply_decision` never checks for a terminal status. -/
theorem terminal_status_not_preserved_cex :
    Guardian.reqC2.status = Guardian.ApprovalStatus.REJECTED
    ∧ (Guardian.apply_decision Guardian.rulesC2 Guardian.reqC2 "g2"
        Guardian.ApprovalStatus.APPROVED none).status = Guardian.ApprovalStatus.APPROVED
    ∧ (Guardian.apply_decision Guardian.rulesC2 Guardian.reqC2 "g2"
        Guardian.ApprovalStatus.APPROVED none).status ≠ Guardian.reqC2.status := by
  refine ⟨by decide, by decide, by decide⟩

/-- The decisions list after `apply_decision`: any prior vote by the same
guardian removed, the new vote appended — identical in every status
branch. -/
theorem apply_decision_decisions (rules : List (String × Guardian.GuardianRule))
    (request : Guardian.ApprovalRequest) (guardian_id : String)
    (status : Guardian.ApprovalStatus) (reason : Option String) :
    (Guardian.apply_decision rules request guardian_id status reason).decisions =
      (request.decisions.filter (fun d => decide (d.guardian_id ≠ guardian_id))) ++
        [{ guardian_id := guardian_id, status := status, reason := reason }] := by
  rw [Guardian.apply_decision]
  split
  · rfl
  · split
    · split <;> rfl
    · rfl

/-- C2 amended: `apply_decision` recomputes the status from the incoming
vote regardless of any terminal status already reached: a REJECTED vote
always sets REJECTED; a non-REJECTED vote sets APPROVED exactly when the
updated approvals count reaches the rule's `min_approvals`, and otherwise
leaves the stored status unchanged. -/
theorem apply_decision_recomputes_status
    (rules : List (String × Guardian.GuardianRule)) (request : Guardian.ApprovalRequest)
    (guardian_id : String) (status : Guardian.ApprovalStatus) (reason : Option String)
    (hterm : request.status = Guardian.ApprovalStatus.REJECTED ∨
             request.status = Guardian.ApprovalStatus.APPROVED) :
    (status = Guardian.ApprovalStatus.REJECTED →
      (Guardian.apply_decision rules request guardian_id status reason).status =
        Guardian.ApprovalStatus.REJECTED)
    ∧ (status ≠ Guardian.ApprovalStatus.REJECTED →
        ∀ rule, rules.lookup request.rule_id = some rule →
          (((Guardian.apply_decision rules request guardian_id status reason).approvals_count : Int) ≥
              rule.min_approvals →
            (Guardian.apply_decision rules request guardian_id status reason).status =
              Guardian.ApprovalStatus.APPROVED)
          ∧ (((Guardian.apply_decision rules request guardian_id status reason).approvals_count : Int) <
              rule.min_approvals →
            (Guardian.apply_decision rules request guardian_id status reason).status =
              request.status))
    ∧ (status ≠ Guardian.ApprovalStatus.REJECTED →
        rules.lookup request.rule_id = none →
        (Guardian.apply_decision rules request guardian_id status reason).status =
          request.status) := by
  have hcount : (Guardian.apply_decision rules request guardian_id status reason).approvals_count =
      (({ request with
            decisions := (request.decisions.filter (fun d => decide (d.guardian_id ≠ guardian_id))) ++
              [{ guardian_id := guardian_id, status := status, reason := reason }] } :
          Guardian.ApprovalRequest)).approvals_count := by
    rw [Guardian.ApprovalRequest.approvals_count, Guardian.ApprovalRequest.approvals_count,
        apply_decision_decisions]
  refine ⟨?_, ?_, ?_⟩
  · intro hrej
    simp [Guardian.apply_decision, hrej]
  · intro hnrej rule hrule
    by_cases hc : (({ request with
        decisions := (request.decisions.filter (fun d => decide (d.guardian_id ≠ guardian_id))) ++
          [{ guardian_id := guardian_id, status := status, reason := reason }] } :
        Guardian.ApprovalRequest).approvals_count : Int) ≥ rule.min_approvals
    · have hres : Guardian.apply_decision rules request guardian_id status reason =
          { request with
            decisions := (request.decisions.filter (fun d => decide (d.guardian_id ≠ guardian_id))) ++
              [{ guardian_id := guardian_id, status := status, reason := reason }],
            status := Guardian.ApprovalStatus.APPROVED } := by
        rw [Guardian.apply_decision, if_neg hnrej]
        dsimp only
        rw [hrule]
        dsimp only
        rw [if_pos hc]
      refine ⟨fun _ => by rw [hres], fun hlt => absurd hc ?_⟩
      rw [hcount] at hlt
      exact not_le.mpr hlt
    · have hres : Guardian.apply_decision rules request guardian_id status reason =
          { request with
            decisions := (request.decisions.filter (fun d => decide (d.guardian_id ≠ guardian_id))) ++
              [{ guardian_id := guardian_id, status := status, reason := reason }] } := by
        rw [Guardian.apply_decision, if_neg hnrej]
        dsimp only
        rw [hrule]
        dsimp only
        rw [if_neg hc]
      refine ⟨fun hge => absurd ?_ hc, fun _ => by rw [hres]⟩
      rw [hcount] at hge
      exact hge
  · intro hnrej hrule
    have hres : Guardian.apply_decision rules request guardian_id status reason =
        { request with
          decisions := (request.decisions.filter (fun d => decide (d.guardian_id ≠ guardian_id))) ++
            [{ guardian_id := guardian_id, status := status, reason := reason }] } := by
      rw [Guardian.apply_decision, if_neg hnrej]
      dsimp only
      rw [hrule]
    rw [hres]

/-- Witness for the amended C2: applying the characterization to the
already-REJECTED `reqC2` with an APPROVED vote from g2 yields APPROVED. -/
theorem apply_decision_recomputes_status_witness :
    (Guardian.reqC2.status = Guardian.ApprovalStatus.REJECTED ∨
      Guardian.reqC2.status = Guardian.ApprovalStatus.APPROVED)
    ∧ Guardian.ApprovalStatus.APPROVED ≠ Guardian.ApprovalStatus.REJECTED
    ∧ Guardian.rulesC2.lookup Guardian.reqC2.rule_id = some Guardian.ruleC2
    ∧ ((Guardian.apply_decision Guardian.rulesC2 Guardian.reqC2 "g2"
        Guardian.ApprovalStatus.APPROVED none).approvals_count : Int) ≥
        Guardian.ruleC2.min_approvals
    ∧ (Guardian.apply_decision Guardian.rulesC2 Guardian.reqC2 "g2"
        Guardian.ApprovalStatus.APPROVED none).status = Guardian.ApprovalStatus.APPROVED :=
  ⟨Or.inl rfl, by decide, by decide, by decide,
   ((apply_decision_recomputes_status Guardian.rulesC2 Guardian.reqC2 "g2"
      Guardian.ApprovalStatus.APPROVED none (Or.inl rfl)).2.1
      (by decide) Guardian.ruleC2 (by decide)).1 (by decide)⟩

/-! ## C6: two-guardian quorum behaviour -/

/-- C6: with a governing rule requiring two approvals, a fresh PENDING
request stays PENDING after the first distinct guardian's APPROVED vote and
becomes APPROVED after the second distinct guardian's; a REJECTED vote
always forces REJECTED on whatever request it is applied to; and a repeated
vote by the same guardian replaces the prior vote, so the approvals count
stays 1 and the request stays PENDING. -/
theorem guardian_quorum_two (rules : List (String × Guardian.GuardianRule))
    (req : Guardian.ApprovalRequest) (rule : Guardian.GuardianRule) (g1 g2 : String)
    (hg : g1 ≠ g2)
    (hrule : rules.lookup req.rule_id = some rule)
    (hmin : rule.min_approvals = 2)
    (hds : req.decisions = [])
    (hst : req.status = Guardian.ApprovalStatus.PENDING) :
    (Guardian.apply_decision rules req g1 Guardian.ApprovalStatus.APPROVED none).status =
      Guardian.ApprovalStatus.PENDING
    ∧ (Guardian.apply_decision rules
        (Guardian.apply_decision rules req g1 Guardian.ApprovalStatus.APPROVED none)
        g2 Guardian.ApprovalStatus.APPROVED none).status = Guardian.ApprovalStatus.APPROVED
    ∧ (∀ (request : Guardian.ApprovalRequest) (g : String) (reason : Option String),
        (Guardian.apply_decision rules request g Guardian.ApprovalStatus.REJECTED reason).status =
          Guardian.ApprovalStatus.REJECTED)
    ∧ (Guardian.apply_decision rules
        (Guardian.apply_decision rules req g1 Guardian.ApprovalStatus.APPROVED none)
        g1 Guardian.ApprovalStatus.APPROVED none).approvals_count = 1
    ∧ (Guardian.apply_decision rules
        (Guardian.apply_decision rules req g1 Guardian.ApprovalStatus.APPROVED none)
        g1 Guardian.ApprovalStatus.APPROVED none).status = Guardian.ApprovalStatus.PENDING := by
  have happ : Guardian.apply_decision rules req g1 Guardian.ApprovalStatus.APPROVED none =
      { req with
        decisions := [{ guardian_id := g1, status := Guardian.ApprovalStatus.APPROVED,
                        reason := none }] } := by
    rw [Guardian.apply_decision,
        if_neg (by intro hcon; exact Guardian.ApprovalStatus.noConfusion hcon)]
    dsimp only
    rw [hds, hrule]
    dsimp only
    rw [if_neg]
    · rfl
    · rw [hmin]
      simp [Guardian.ApprovalRequest.approvals_count]
  refine ⟨?_, ?_, ?_, ?_, ?_⟩
  · rw [happ, hst]
  · rw [happ]
    rw [Guardian.apply_decision,
        if_neg (by intro hcon; exact Guardian.ApprovalStatus.noConfusion hcon)]
    dsimp only
    rw [hrule]
    dsimp only
    rw [if_pos]
    rw [hmin]
    simp [Guardian.ApprovalRequest.approvals_count, hg, Ne.symm hg]
  · intro request g reason
    rw [Guardian.apply_decision, if_pos rfl]
  · rw [happ]
    rw [Guardian.apply_decision,
        if_neg (by intro hcon; exact Guardian.ApprovalStatus.noConfusion hcon)]
    dsimp only
    rw [hrule]
    dsimp only
    split <;>
      simp [Guardian.ApprovalRequest.approvals_count]
  · rw [happ]
    rw [Guardian.apply_decision,
        if_neg (by intro hcon; exact Guardian.ApprovalStatus.noConfusion hcon)]
    dsimp only
    rw [hrule]
    dsimp only
    rw [if_neg]
    · rw [hst]
    · rw [hmin]
      simp [Guardian.ApprovalRequest.approvals_count]

/-- Witness for C6 at the concrete two-guardian quorum fixture. -/
theorem guardian_quorum_two_witness :
    ("g1" : String) ≠ "g2"
    ∧ Guardian.rulesQuorum.lookup Guardian.reqQuorum.rule_id = some Guardian.ruleQuorum
    ∧ Guardian.ruleQuorum.min_approvals = 2
    ∧ Guardian.reqQuorum.decisions = []
    ∧ Guardian.reqQuorum.status = Guardian.ApprovalStatus.PENDING
    ∧ (Guardian.apply_decision Guardian.rulesQuorum Guardian.reqQuorum "g1"
        Guardian.ApprovalStatus.APPROVED none).status = Guardian.ApprovalStatus.PENDING
    ∧ (Guardian.apply_decision Guardian.rulesQuorum
        (Guardian.apply_decision Guardian.rulesQuorum Guardian.reqQuorum "g1"
          Guardian.ApprovalStatus.APPROVED none)
        "g2" Guardian.ApprovalStatus.APPROVED none).status = Guardian.ApprovalStatus.APPROVED
    ∧ (Guardian.apply_decision Guardian.rulesQuorum Guardian.reqQuorum "g3"
        Guardian.ApprovalStatus.REJECTED (some "veto")).status = Guardian.ApprovalStatus.REJECTED
    ∧ (Guardian.apply_decision Guardian.rulesQuorum
        (Guardian.apply_decision Guardian.rulesQuorum Guardian.reqQuorum "g1"
          Guardian.ApprovalStatus.APPROVED none)
        "g1" Guardian.ApprovalStatus.APPROVED none).approvals_count = 1
    ∧ (Guardian.apply_decision Guardian.rulesQuorum
        (Guardian.apply_decision Guardian.rulesQuorum Guardian.reqQuorum "g1"
          Guardian.ApprovalStatus.APPROVED none)
        "g1" Guardian.ApprovalStatus.APPROVED none).status = Guardian.ApprovalStatus.PENDING := by
  have h := guardian_quorum_two Guardian.rulesQuorum Guardian.reqQuorum Guardian.ruleQuorum
    "g1" "g2" (by decide) (by decide) rfl rfl rfl
  exact ⟨by decide, by decide, rfl, rfl, rfl, h.1, h.2.1,
         h.2.2.1 Guardian.reqQuorum "g3" (some "veto"), h.2.2.2.1, h.2.2.2.2⟩

/-! ## C5: large amounts and the STEP_UP verdict -/

/-- The deterministic step-up requirement list is never empty. -/
theorem best_step_up_requirements_ne_nil (ctx : EQCContext) :
    best_step_up_requirements ctx ≠ [] := by
  rw [best_step_up_requirements]
  cases hb : ctx.user.biometric_available <;> cases hp : ctx.user.pin_set <;> simp

/-- `annotateRuleMatch` changes only the reason list. -/
theorem annotateRuleMatch_type (rule : PolicyRule) (out : Verdict) :
    (annotateRuleMatch rule out).type = out.type ∧
    (annotateRuleMatch rule out).step_up = out.step_up := by
  rw [annotateRuleMatch]
  split <;> exact ⟨rfl, rfl⟩

/-- C5 counterexample: the claim quantifies over every context with all
four sub-records present and a large amount, but a browser-device context
with a large amount is denied by the earlier hard-block rule, not stepped
up. -/
theorem large_amount_step_up_cex :
    10000000 ≤ ctxBrowserLarge.action.amount.getD 0
    ∧ (default_policy.decide ctxBrowserLarge).verdict.type = VerdictType.DENY
    ∧ (default_policy.decide ctxBrowserLarge).verdict.type ≠ VerdictType.STEP_UP :=
  ⟨by decide, by decide, by decide⟩

/-- C5 amended: for every context whose lower-cased device type is not
`browser`, `extension` or `browser_extension` (so that no hard-block rule
fires first) and whose amount meets the 10,000,000 threshold, the default
policy returns STEP_UP with a non-empty requirement list. -/
theorem large_amount_step_up (ctx : EQCContext)
    (hb : strLower ctx.device.device_type ≠ "browser")
    (he : strLower ctx.device.device_type ≠ "extension")
    (hbe : strLower ctx.device.device_type ≠ "browser_extension")
    (hamt : 10000000 ≤ ctx.action.amount.getD 0) :
    (default_policy.decide ctx).verdict.type = VerdictType.STEP_UP
    ∧ ∃ su, (default_policy.decide ctx).verdict.step_up = some su ∧ su.requirements ≠ [] := by
  have h1 : decide (strLower ctx.device.device_type = "browser") = false := by
    simp [hb]
  have h2 : (decide (strLower ctx.device.device_type = "extension") ||
      decide (strLower ctx.device.device_type = "browser_extension")) = false := by
    simp [he, hbe]
  have h4 : decide (10000000 ≤ ctx.action.amount.getD 0) = true := by
    simp [hamt]
  have hver : (default_policy.decide ctx).verdict = evalRules default_policy.rules ctx := rfl
  rw [hver, default_policy]
  dsimp only
  rw [evalRules]
  dsimp only
  rw [h1]
  simp only [Bool.false_eq_true, if_false]
  rw [evalRules]
  dsimp only
  rw [h2]
  simp only [Bool.false_eq_true, if_false]
  rw [evalRules]
  dsimp only
  by_cases hm : (decide (strLower ctx.action.action = "mint") ||
      decide (strLower ctx.action.action = "redeem") ||
      (decide (strLower ctx.action.asset = "digidollar") &&
        (decide (strLower ctx.action.action = "issue") ||
         decide (strLower ctx.action.action = "burn")))) = true
  · rw [hm]
    simp only [if_true]
    refine ⟨(annotateRuleMatch_type _ _).1, ?_⟩
    refine ⟨{ requirements := best_step_up_requirements ctx,
              message := "Mint/Redeem requires step-up verification." }, ?_,
            best_step_up_requirements_ne_nil ctx⟩
    exact (annotateRuleMatch_type _ _).2
  · rw [Bool.not_eq_true] at hm
    rw [hm]
    simp only [Bool.false_eq_true, if_false]
    rw [evalRules]
    dsimp only
    rw [h4]
    simp only [if_true]
    refine ⟨(annotateRuleMatch_type _ _).1, ?_⟩
    refine ⟨{ requirements := best_step_up_requirements ctx,
              message := "Large amount requires step-up verification." }, ?_,
            best_step_up_requirements_ne_nil ctx⟩
    exact (annotateRuleMatch_type _ _).2

/-- Witness for the amended C5: a trusted mobile context moving 10,000,000
units is stepped up with a non-empty requirement list. -/
theorem large_amount_step_up_witness :
    strLower ctxLargeW.device.device_type ≠ "browser"
    ∧ strLower ctxLargeW.device.device_type ≠ "extension"
    ∧ strLower ctxLargeW.device.device_type ≠ "browser_extension"
    ∧ 10000000 ≤ ctxLargeW.action.amount.getD 0
    ∧ (default_policy.decide ctxLargeW).verdict.type = VerdictType.STEP_UP
    ∧ (∃ su, (default_policy.decide ctxLargeW).verdict.step_up = some su ∧
        su.requirements ≠ []) := by
  have h := large_amount_step_up ctxLargeW (by decide) (by decide) (by decide) (by decide)
  exact ⟨by decide, by decide, by decide, by decide, h.1, h.2⟩

/-! ## C1: at-most-once guarded execution per nonce -/

/-- C1: a scope bound from an ALLOW decision, presented at binding time to
`execute_guarded` with matching wallet, action and context through an
active session and a fresh nonce, succeeds with the executor invoked
exactly once; afterwards every call presenting the same nonce to the same
session fails with a guard error and never invokes its executor, whatever
scope, context, wallet, action, executor or time it supplies. -/
theorem guarded_execution_at_most_once {α β : Type}
    (decision : EQCDecision) (wallet_id action : String) (ttl_seconds : Int)
    (b : BoundScope) (session : WSQKSession) (nonce : String)
    (context : EQCContext) (executor : EQCContext → α) (now : Int)
    (hbind : bind_scope_from_eqc decision wallet_id action ttl_seconds now = Except.ok b)
    (hhash : decision.context_hash = context.context_hash)
    (httl : 0 ≤ ttl_seconds)
    (hsess : session.is_active now = true)
    (hfresh : nonce ∉ session.used_nonces) :
    (execute_guarded b.scope session nonce context wallet_id action executor now =
      (Except.ok { scope := b.scope, session_id := session.session_id,
                   nonce := nonce, result := executor context },
       { session with used_nonces := nonce :: session.used_nonces }))
    ∧ execute_guarded_calls b.scope session nonce context wallet_id action now = 1
    ∧ ∀ (scope' : WSQKScope) (context' : EQCContext) (w' a' : String)
        (executor' : EQCContext → β) (now' : Int),
        exceptIsOk (execute_guarded scope' { session with used_nonces := nonce :: session.used_nonces }
          nonce context' w' a' executor' now').1 = false
        ∧ execute_guarded_calls scope' { session with used_nonces := nonce :: session.used_nonces }
            nonce context' w' a' now' = 0 := by
  have hb : b = { scope := WSQKScope.from_ttl wallet_id action decision.context_hash ttl_seconds now,
                  eqc_context_hash := decision.context_hash } := by
    by_cases hal : decision.verdict.type = VerdictType.ALLOW
    · rw [bind_scope_from_eqc, if_neg (not_ne_iff.mpr hal)] at hbind
      injection hbind with hbb
      rw [hbb]
    · rw [bind_scope_from_eqc, if_pos hal] at hbind
      exact Except.noConfusion hbind
  have hchk : scope_checks_pass b.scope context wallet_id action now = true := by
    rw [hb]
    simp [scope_checks_pass, WSQKScope.is_active, WSQKScope.from_ttl, httl, hhash.symm]
  refine ⟨execute_guarded_ok b.scope session nonce context wallet_id action executor now
            hsess hfresh hchk, ?_, ?_⟩
  · rw [execute_guarded_calls, if_pos (by simp [hsess, hfresh]),
        execute_with_scope_calls, if_pos hchk]
  · intro scope' context' w' a' executor' now'
    exact execute_guarded_replay scope' _ nonce context' w' a' executor' now'
      (List.mem_cons_self nonce session.used_nonces)

/-- Witness for C1: the concrete ALLOW decision over `ctxW` binds a scope
that executes exactly once through `sessionW`, and replaying the nonce
fails. -/
theorem guarded_execution_at_most_once_witness :
    bind_scope_from_eqc allowDecisionW "w1" "send" 60 0 = Except.ok boundW
    ∧ allowDecisionW.context_hash = ctxW.context_hash
    ∧ (0 : Int) ≤ 60
    ∧ sessionW.is_active 0 = true
    ∧ "n1" ∉ sessionW.used_nonces
    ∧ (execute_guarded boundW.scope sessionW "n1" ctxW "w1" "send" (fun _ => (7 : Nat)) 0 =
        (Except.ok { scope := boundW.scope, session_id := sessionW.session_id,
                     nonce := "n1", result := 7 },
         { sessionW with used_nonces := "n1" :: sessionW.used_nonces }))
    ∧ execute_guarded_calls boundW.scope sessionW "n1" ctxW "w1" "send" 0 = 1
    ∧ ∀ (scope' : WSQKScope) (context' : EQCContext) (w' a' : String)
        (executor' : EQCContext → Nat) (now' : Int),
        exceptIsOk (execute_guarded scope' { sessionW with used_nonces := "n1" :: sessionW.used_nonces }
          "n1" context' w' a' executor' now').1 = false
        ∧ execute_guarded_calls scope' { sessionW with used_nonces := "n1" :: sessionW.used_nonces }
            "n1" context' w' a' now' = 0 := by
  have h := guarded_execution_at_most_once (β := Nat) allowDecisionW "w1" "send" 60 boundW
    sessionW "n1" ctxW (fun _ => (7 : Nat)) 0 rfl rfl (by decide) (by decide) (by decide)
  exact ⟨rfl, rfl, by decide, by decide, by decide, h.1, h.2.1, h.2.2⟩

/-! ## C9: a failed scope check still consumes the nonce -/

/-- C9: when the session is active and the nonce fresh but some scope
check fails, `execute_guarded` raises a guard error without invoking the
executor, yet the nonce stays recorded as consumed in the resulting
session state, so every later call presenting that nonce fails and never
invokes its executor — even one whose scope checks would all pass. -/
theorem guard_failure_consumes_nonce {α β : Type} (scope : WSQKScope)
    (session : WSQKSession) (nonce : String) (context : EQCContext)
    (wallet_id action : String) (executor : EQCContext → α) (now : Int)
    (hsess : session.is_active now = true)
    (hfresh : nonce ∉ session.used_nonces)
    (hfail : scope_checks_pass scope context wallet_id action now = false) :
    (exceptIsOk (execute_guarded scope session nonce context wallet_id action executor now).1 = false)
    ∧ execute_guarded_calls scope session nonce context wallet_id action now = 0
    ∧ nonce ∈ (execute_guarded scope session nonce context wallet_id action executor now).2.used_nonces
    ∧ ∀ (scope' : WSQKScope) (context' : EQCContext) (w' a' : String)
        (executor' : EQCContext → β) (now' : Int),
        exceptIsOk (execute_guarded scope'
          (execute_guarded scope session nonce context wallet_id action executor now).2
          nonce context' w' a' executor' now').1 = false
        ∧ execute_guarded_calls scope'
            (execute_guarded scope session nonce context wallet_id action executor now).2
            nonce context' w' a' now' = 0 := by
  obtain ⟨e, he⟩ := execute_with_scope_err scope context wallet_id action executor now hfail
  have hout : execute_guarded scope session nonce context wallet_id action executor now =
      (Except.error e, { session with used_nonces := nonce :: session.used_nonces }) := by
    simp [execute_guarded, WSQKSession.consume_nonce, hsess, hfresh, he]
  refine ⟨?_, ?_, ?_, ?_⟩
  · rw [hout]
    rfl
  · rw [execute_guarded_calls, if_pos (by simp [hsess, hfresh]),
        execute_with_scope_calls, if_neg (by rw [hfail]; exact Bool.false_ne_true)]
  · rw [hout]
    exact List.mem_cons_self nonce session.used_nonces
  · intro scope' context' w' a' executor' now'
    rw [hout]
    exact execute_guarded_replay scope' _ nonce context' w' a' executor' now'
      (List.mem_cons_self nonce session.used_nonces)

/-- Witness for C9: a scope bound to a different wallet rejects the call
while consuming the nonce, and a subsequent call whose scope checks would
all pass still fails on the replayed nonce. -/
theorem guard_failure_consumes_nonce_witness :
    sessionW.is_active 0 = true
    ∧ "n2" ∉ sessionW.used_nonces
    ∧ scope_checks_pass scopeWrongWalletW ctxW "w1" "send" 0 = false
    ∧ (exceptIsOk (execute_guarded scopeWrongWalletW sessionW "n2" ctxW "w1" "send"
        (fun _ => (3 : Nat)) 0).1 = false)
    ∧ execute_guarded_calls scopeWrongWalletW sessionW "n2" ctxW "w1" "send" 0 = 0
    ∧ "n2" ∈ (execute_guarded scopeWrongWalletW sessionW "n2" ctxW "w1" "send"
        (fun _ => (3 : Nat)) 0).2.used_nonces
    ∧ (∀ (scope' : WSQKScope) (context' : EQCContext) (w' a' : String)
        (executor' : EQCContext → Nat) (now' : Int),
        exceptIsOk (execute_guarded scope'
          (execute_guarded scopeWrongWalletW sessionW "n2" ctxW "w1" "send"
            (fun _ => (3 : Nat)) 0).2
          "n2" context' w' a' executor' now').1 = false
        ∧ execute_guarded_calls scope'
            (execute_guarded scopeWrongWalletW sessionW "n2" ctxW "w1" "send"
              (fun _ => (3 : Nat)) 0).2
            "n2" context' w' a' now' = 0) := by
  have hfail : scope_checks_pass scopeWrongWalletW ctxW "w1" "send" 0 = false := rfl
  have h := guard_failure_consumes_nonce (β := Nat) scopeWrongWalletW sessionW "n2" ctxW
    "w1" "send" (fun _ => (3 : Nat)) 0 (by decide) (by decide) hfail
  exact ⟨by decide, by decide, hfail, h.1, h.2.1, h.2.2.1, h.2.2.2⟩

/-! ## C8: the context hash is a pure function of the context value -/

/-- Two key-sorted association lists with duplicate-free keys that are
permutations of each other are equal. -/
theorem sorted_nodup_keys_perm_eq :
    ∀ (l1 l2 : List (String × JVal)), l1.Perm l2 →
      l1.Sorted extraKeyLe → l2.Sorted extraKeyLe →
      (l1.map Prod.fst).Nodup → l1 = l2 := by
  intro l1
  induction l1 with
  | nil =>
    intro l2 hp _ _ _
    exact (hp.symm.eq_nil).symm
  | cons a t ih =>
    intro l2 hp hs1 hs2 hnd
    cases l2 with
    | nil => exact absurd hp.eq_nil (List.cons_ne_nil a t)
    | cons b t2 =>
      have hab : a = b := by
        have ha2 : a ∈ b :: t2 := hp.subset (List.mem_cons_self a t)
        have hb1 : b ∈ a :: t := hp.symm.subset (List.mem_cons_self b t2)
        rcases List.mem_cons.mp ha2 with h | hat2
        · exact h
        · rcases List.mem_cons.mp hb1 with h | hbt
          · exact h.symm
          · exfalso
            have h1 : extraKeyLe a b := List.rel_of_sorted_cons hs1 b hbt
            have h2 : extraKeyLe b a := List.rel_of_sorted_cons hs2 a hat2
            have hkey : a.1 = b.1 := le_antisymm h1 h2
            rw [List.map_cons, List.nodup_cons] at hnd
            exact hnd.1 (by rw [hkey]; exact List.mem_map_of_mem Prod.fst hbt)
      subst hab
      have hteq : t = t2 := by
        rw [List.map_cons, List.nodup_cons] at hnd
        exact ih t2 hp.cons_inv hs1.of_cons hs2.of_cons hnd.2
      rw [hteq]

/-- `sortExtra` depends only on the underlying key-value map: permuting a
duplicate-free-keyed `extra` list leaves the sorted rendering unchanged. -/
theorem sortExtra_respects_perm (l1 l2 : List (String × JVal))
    (hp : l1.Perm l2) (hnd : (l1.map Prod.fst).Nodup) :
    sortExtra l1 = sortExtra l2 := by
  apply sorted_nodup_keys_perm_eq
  · exact (List.perm_insertionSort extraKeyLe l1).trans
      (hp.trans (List.perm_insertionSort extraKeyLe l2).symm)
  · exact List.sorted_insertionSort extraKeyLe l1
  · exact List.sorted_insertionSort extraKeyLe l2
  · exact (((List.perm_insertionSort extraKeyLe l1).map Prod.fst).nodup_iff).mpr hnd

/-- C8: `context_hash` is a pure function of the context value — two
contexts agreeing on all sub-records and timestamp whose `extra` maps hold
the same entries (in any order, with duplicate-free keys) hash to the same
digest. -/
theorem context_hash_pure_function (c1 c2 : EQCContext)
    (ha : c1.action = c2.action) (hd : c1.device = c2.device)
    (hn : c1.network = c2.network) (hu : c1.user = c2.user)
    (ht : c1.timestamp = c2.timestamp)
    (hx : c1.extra.Perm c2.extra)
    (hk : (c1.extra.map Prod.fst).Nodup) :
    c1.context_hash = c2.context_hash := by
  rw [EQCContext.context_hash, EQCContext.context_hash, EQCContext.canonical_json,
      EQCContext.canonical_json, extraJson, extraJson, ha, hd, hn, hu, ht,
      sortExtra_respects_perm c1.extra c2.extra hx hk]

/-- Witness for C8: the same `extra` map written in two different insertion
orders yields the same context hash. -/
theorem context_hash_pure_function_witness :
    ctxExtraA.action = ctxExtraB.action
    ∧ ctxExtraA.device = ctxExtraB.device
    ∧ ctxExtraA.network = ctxExtraB.network
    ∧ ctxExtraA.user = ctxExtraB.user
    ∧ ctxExtraA.timestamp = ctxExtraB.timestamp
    ∧ ctxExtraA.extra.Perm ctxExtraB.extra
    ∧ (ctxExtraA.extra.map Prod.fst).Nodup
    ∧ ctxExtraA.extra ≠ ctxExtraB.extra
    ∧ ctxExtraA.context_hash = ctxExtraB.context_hash := by
  refine ⟨rfl, rfl, rfl, rfl, rfl, by decide, by decide, by decide, ?_⟩
  exact context_hash_pure_function ctxExtraA ctxExtraB rfl rfl rfl rfl rfl
    (by decide) (by decide)

/-! ## C7: evaluate, thresholds and the rule named by the request -/

/-- C7 counterexample: with the first matching rule a 100-unit threshold
rule and the second a no-threshold rule, a 50-unit action requires
approval, but the request names the second rule — the first matching rule
that requires approval — not the first matching rule. -/
theorem evaluate_first_matching_cex :
    (Guardian.find_matching_rules Guardian.rulesB Guardian.ctxSmall).map (fun r => r.id) =
      ["r1", "r2"]
    ∧ (Guardian.evaluate Guardian.rulesB Guardian.ctxSmall).1 =
        Guardian.GuardianVerdict.REQUIRE_APPROVAL
    ∧ ((Guardian.evaluate Guardian.rulesB Guardian.ctxSmall).2.map (fun r => r.rule_id)) =
        some "r2"
    ∧ (some "r2" : Option String) ≠ some "r1" :=
  ⟨by decide, by decide, by decide, by decide⟩

/-- The per-rule approval test unfolded: no threshold, or a present value
meeting the threshold. -/
theorem requires_approval_rule_iff (ctx : Guardian.ActionContext) (r : Guardian.GuardianRule) :
    Guardian.requires_approval_rule ctx r = true ↔
      r.threshold_value = none ∨
      ∃ v t, ctx.value = some v ∧ r.threshold_value = some t ∧ t ≤ v := by
  rw [Guardian.requires_approval_rule]
  cases hV : r.threshold_value with
  | none => simp
  | some t =>
    cases hv : ctx.value with
    | none => simp
    | some v => simp

/-- In a catalog whose matching rules contain no block rule, `evaluate`
reduces to the first matching rule that requires approval. -/
theorem evaluate_eq_find (rules : List (String × Guardian.GuardianRule))
    (ctx : Guardian.ActionContext)
    (hnoblock : (Guardian.find_matching_rules rules ctx).any Guardian.is_block_rule = false) :
    Guardian.evaluate rules ctx =
      match (Guardian.find_matching_rules rules ctx).find?
          (fun r => Guardian.requires_approval_rule ctx r) with
      | none => (Guardian.GuardianVerdict.ALLOW, none)
      | some rule =>
          (Guardian.GuardianVerdict.REQUIRE_APPROVAL,
           some (Guardian.build_approval_request ctx rule)) := by
  rw [Guardian.evaluate]
  by_cases he : (Guardian.find_matching_rules rules ctx).isEmpty
  · rw [if_pos he, List.isEmpty_iff.mp he]
    rfl
  · rw [if_neg he, if_neg (by rw [hnoblock]; exact Bool.false_ne_true),
        Guardian.requires_approval]

/-- A value is at or above some element of an integer list exactly when it
is at or above the list's minimum. -/
theorem exists_le_iff_min?_le (l : List Int) (v : Int) :
    (∃ t ∈ l, t ≤ v) ↔ ∃ t0, l.min? = some t0 ∧ t0 ≤ v := by
  have hiff : ∀ a : Int, l.min? = some a ↔ a ∈ l ∧ ∀ b ∈ l, a ≤ b := by
    intro a
    haveI : Std.Antisymm (fun (x1 x2 : Int) => x1 ≤ x2) :=
      ⟨fun h1 h2 => le_antisymm h1 h2⟩
    exact List.min?_eq_some_iff (fun x => le_refl x) (fun x y => min_choice x y)
      (fun x y z => le_min_iff)
  constructor
  · rintro ⟨t, htl, htv⟩
    cases hm : l.min? with
    | none =>
      rw [List.min?_eq_none_iff] at hm
      subst hm
      cases htl
    | some t0 =>
      exact ⟨t0, rfl, le_trans (((hiff t0).mp hm).2 t htl) htv⟩
  · rintro ⟨t0, hm, htv⟩
    exact ⟨t0, ((hiff t0).mp hm).1, htv⟩

/-- C7 amended: when no matching rule is a block rule, `evaluate` requires
approval exactly when some matching rule lacks a threshold or the action's
value meets or exceeds the lowest threshold among the matching rules; when
none requires approval it returns ALLOW with no request; and the returned
request names the first matching rule **that requires approval** (which
need not be the first matching rule). -/
theorem guardian_threshold_evaluation (rules : List (String × Guardian.GuardianRule))
    (ctx : Guardian.ActionContext)
    (hnb : ∀ r ∈ Guardian.find_matching_rules rules ctx, Guardian.is_block_rule r = false) :
    ((Guardian.evaluate rules ctx).1 = Guardian.GuardianVerdict.REQUIRE_APPROVAL ↔
      (∃ r ∈ Guardian.find_matching_rules rules ctx, r.threshold_value = none) ∨
      (∃ v, ctx.value = some v ∧ ∃ t0,
        ((Guardian.find_matching_rules rules ctx).filterMap
          Guardian.GuardianRule.threshold_value).min? = some t0 ∧ t0 ≤ v))
    ∧ ((Guardian.evaluate rules ctx).1 ≠ Guardian.GuardianVerdict.REQUIRE_APPROVAL →
        Guardian.evaluate rules ctx = (Guardian.GuardianVerdict.ALLOW, none))
    ∧ ((Guardian.evaluate rules ctx).2.map (fun r => r.rule_id) =
        ((Guardian.find_matching_rules rules ctx).find?
          (fun r => Guardian.requires_approval_rule ctx r)).map (fun r => r.id)) := by
  have hnoblock : (Guardian.find_matching_rules rules ctx).any Guardian.is_block_rule = false :=
    List.any_eq_false.mpr (fun x hx => by rw [hnb x hx]; exact Bool.false_ne_true)
  have hev := evaluate_eq_find rules ctx hnoblock
  have hrhs : ((∃ r ∈ Guardian.find_matching_rules rules ctx, r.threshold_value = none) ∨
      (∃ v, ctx.value = some v ∧ ∃ t0,
        ((Guardian.find_matching_rules rules ctx).filterMap
          Guardian.GuardianRule.threshold_value).min? = some t0 ∧ t0 ≤ v)) ↔
      (∃ r ∈ Guardian.find_matching_rules rules ctx,
        Guardian.requires_approval_rule ctx r = true) := by
    constructor
    · rintro (⟨r, hrm, hrt⟩ | ⟨v, hv, ht0⟩)
      · exact ⟨r, hrm, (requires_approval_rule_iff ctx r).mpr (Or.inl hrt)⟩
      · obtain ⟨t, htmem, htv⟩ := (exists_le_iff_min?_le _ v).mpr ht0
        obtain ⟨r, hrm, hrt⟩ := List.mem_filterMap.mp htmem
        exact ⟨r, hrm, (requires_approval_rule_iff ctx r).mpr (Or.inr ⟨v, t, hv, hrt, htv⟩)⟩
    · rintro ⟨r, hrm, hrt⟩
      rcases (requires_approval_rule_iff ctx r).mp hrt with hnone | ⟨v, t, hv, hsome, htv⟩
      · exact Or.inl ⟨r, hrm, hnone⟩
      · refine Or.inr ⟨v, hv, ?_⟩
        exact (exists_le_iff_min?_le _ v).mp
          ⟨t, List.mem_filterMap.mpr ⟨r, hrm, hsome⟩, htv⟩
  refine ⟨?_, ?_, ?_⟩
  · rw [hev]
    cases hf : (Guardian.find_matching_rules rules ctx).find?
        (fun r => Guardian.requires_approval_rule ctx r) with
    | none =>
      dsimp only
      rw [hrhs]
      constructor
      · intro hcon
        exact absurd hcon (by intro hcon2; exact Guardian.GuardianVerdict.noConfusion hcon2)
      · rintro ⟨r, hrm, hrt⟩
        exact absurd hrt (List.find?_eq_none.mp hf r hrm)
    | some r =>
      dsimp only
      rw [hrhs]
      exact ⟨fun _ => ⟨r, List.mem_of_find?_eq_some hf, List.find?_some hf⟩, fun _ => rfl⟩
  · rw [hev]
    cases hf : (Guardian.find_matching_rules rules ctx).find?
        (fun r => Guardian.requires_approval_rule ctx r) with
    | none => intro _; rfl
    | some r =>
      dsimp only
      intro hcon
      exact absurd rfl hcon
  · rw [hev]
    cases hf : (Guardian.find_matching_rules rules ctx).find?
        (fun r => Guardian.requires_approval_rule ctx r) with
    | none => rfl
    | some r => rfl

/-- Witness for the amended C7 at the concrete catalog `rulesB`: the
50-unit action requires approval via the no-threshold rule `r2`, and the
request names `r2`. -/
theorem guardian_threshold_evaluation_witness :
    (∀ r ∈ Guardian.find_matching_rules Guardian.rulesB Guardian.ctxSmall,
      Guardian.is_block_rule r = false)
    ∧ ((Guardian.evaluate Guardian.rulesB Guardian.ctxSmall).1 =
        Guardian.GuardianVerdict.REQUIRE_APPROVAL ↔
      (∃ r ∈ Guardian.find_matching_rules Guardian.rulesB Guardian.ctxSmall,
        r.threshold_value = none) ∨
      (∃ v, Guardian.ctxSmall.value = some v ∧ ∃ t0,
        ((Guardian.find_matching_rules Guardian.rulesB Guardian.ctxSmall).filterMap
          Guardian.GuardianRule.threshold_value).min? = some t0 ∧ t0 ≤ v))
    ∧ ((Guardian.evaluate Guardian.rulesB Guardian.ctxSmall).2.map (fun r => r.rule_id) =
        ((Guardian.find_matching_rules Guardian.rulesB Guardian.ctxSmall).find?
          (fun r => Guardian.requires_approval_rule Guardian.ctxSmall r)).map (fun r => r.id)) := by
  have h := guardian_threshold_evaluation Guardian.rulesB Guardian.ctxSmall (by decide)
  exact ⟨by decide, h.1, h.2.2⟩
